import Mathlib

/-!
Shallow embedding of `src/heartbeat/src/main.rs`, a periodic system monitor
with a sliding-window anomaly-detection engine.

Modelling conventions:
* Rust `u64`/`u32`/`usize` values are modelled as `Nat` (no arithmetic in the
  program can overflow the 64-bit range for realistic inputs, and none of the
  verified properties depend on wraparound).
* Rust `f32`/`f64` arithmetic is modelled exactly over `ℚ`.  Where the
  distinction between finite values, NaN and infinities matters (the derived
  percentage fields), computations are carried out in `RF`, a rational-valued
  model of IEEE floating point that tracks NaN and the two infinities but keeps
  finite arithmetic exact.  The literal `1.2f32` is modelled as `6/5`.
* The `sysinfo` crate is the external metrics source; per the design it is a
  black box, so one `ExternalReading` structure carries the values its
  accessors return on a given tick, and `StaticSource` the values read once at
  startup.
-/

/-- Model of an IEEE floating-point value: exact finite rationals plus NaN and
the two infinities.  Finite arithmetic is exact (no rounding); the special
values follow IEEE semantics for the operations used by the program. -/
inductive RF where
  | fin (q : ℚ)
  | nan
  | inf
  | ninf
deriving DecidableEq

namespace RF

/-- IEEE division: `0/0` is NaN, `x/0` for `x ≠ 0` is a signed infinity,
finite division is exact. -/
def div : RF → RF → RF
  | fin x, fin y =>
      if y = 0 then (if x = 0 then nan else if x > 0 then inf else ninf)
      else fin (x / y)
  | nan, _ => nan
  | _, nan => nan
  | inf, inf => nan
  | inf, ninf => nan
  | ninf, inf => nan
  | ninf, ninf => nan
  | inf, fin y => if y < 0 then ninf else inf
  | ninf, fin y => if y < 0 then inf else ninf
  | fin _, inf => fin 0
  | fin _, ninf => fin 0

/-- IEEE multiplication: `inf * 0` is NaN, NaN propagates, finite
multiplication is exact. -/
def mul : RF → RF → RF
  | fin x, fin y => fin (x * y)
  | nan, _ => nan
  | _, nan => nan
  | inf, inf => inf
  | inf, ninf => ninf
  | ninf, inf => ninf
  | ninf, ninf => inf
  | inf, fin y => if y = 0 then nan else if y > 0 then inf else ninf
  | fin x, inf => if x = 0 then nan else if x > 0 then inf else ninf
  | ninf, fin y => if y = 0 then nan else if y > 0 then ninf else inf
  | fin x, ninf => if x = 0 then nan else if x > 0 then ninf else inf

/-- A value is finite when it is `fin q` for some rational `q`. -/
def isFinite : RF → Prop
  | fin _ => True
  | _ => False

instance : DecidablePred isFinite := fun x => by
  cases x <;> simp [isFinite] <;> infer_instance

end RF

/-! ## Data model: the `SystemMetrics` snapshot and its nested records -/

structure OsInfo where
  name : String
  kernel_version : String
  os_version : String
  long_os_version : String
  hostname : String
  distribution_id : String
deriving DecidableEq

structure CoreMetrics where
  core_id : Nat
  usage_percent : ℚ
deriving DecidableEq

structure CpuInfo where
  brand : String
  vendor_id : String
  frequency_mhz : Nat
  physical_core_count : Nat
deriving DecidableEq

structure DiskMetrics where
  name : String
  mount_point : String
  total_space_gb : ℚ
  available_space_gb : ℚ
  used_space_gb : ℚ
  usage_percent : RF
  is_removable : Bool
  disk_kind : String
  file_system : String
deriving DecidableEq

structure NetworkMetrics where
  interface_name : String
  bytes_received : Nat
  bytes_transmitted : Nat
  packets_received : Nat
  packets_transmitted : Nat
  errors_received : Nat
  errors_transmitted : Nat
deriving DecidableEq

structure ProcessMetrics where
  pid : Nat
  name : String
  cpu_usage : ℚ
  memory_mb : Nat
  disk_read_bytes : Nat
  disk_write_bytes : Nat
deriving DecidableEq

structure LoadAverage where
  one_minute : ℚ
  five_minutes : ℚ
  fifteen_minutes : ℚ
deriving DecidableEq

structure SystemMetrics where
  timestamp : Nat
  os_info : OsInfo
  cpu_usage_percent : ℚ
  cpu_cores : List CoreMetrics
  cpu_info : CpuInfo
  memory_total_mb : Nat
  memory_used_mb : Nat
  memory_free_mb : Nat
  memory_available_mb : Nat
  memory_usage_percent : RF
  swap_total_mb : Nat
  swap_used_mb : Nat
  disks : List DiskMetrics
  network_interfaces : List NetworkMetrics
  process_count : Nat
  top_processes : List ProcessMetrics
  load_average : LoadAverage
  uptime_seconds : Nat
  boot_time : Nat
  cpu_spike_detected : Bool
  memory_leak_suspected : Bool
deriving DecidableEq

/-! ## The external metrics source (the `sysinfo` black box) -/

/-- Raw per-disk values returned by the external source on one tick. -/
structure DiskRaw where
  name : String
  mount_point : String
  total_space : Nat
  available_space : Nat
  is_removable : Bool
  disk_kind : String
  file_system : String

/-- Raw per-interface values returned by the external source on one tick. -/
structure NetRaw where
  interface_name : String
  total_received : Nat
  total_transmitted : Nat
  total_packets_received : Nat
  total_packets_transmitted : Nat
  total_errors_on_received : Nat
  total_errors_on_transmitted : Nat

/-- Raw per-process values returned by the external source on one tick. -/
structure ProcRaw where
  pid : Nat
  name : String
  cpu_usage : ℚ
  memory : Nat
  read_bytes : Nat
  written_bytes : Nat

/-- Everything `Monitor::collect_metrics` reads from the refreshed external
source and the clock on one tick. -/
structure ExternalReading where
  global_cpu_usage : ℚ
  cpus : List ℚ
  total_memory : Nat
  used_memory : Nat
  free_memory : Nat
  available_memory : Nat
  total_swap : Nat
  used_swap : Nat
  disks : List DiskRaw
  networks : List NetRaw
  processes : List ProcRaw
  load_one : ℚ
  load_five : ℚ
  load_fifteen : ℚ
  uptime : Nat
  boot_time : Nat
  now : Nat

/-- Per-CPU static values read once at startup. -/
structure CpuRaw where
  brand : String
  vendor_id : String
  frequency : Nat

/-- Static system information read once by `Monitor::new` (the `System::name`
family returns `Option<String>` and `distribution_id` a plain `String`). -/
structure StaticSource where
  name : Option String
  kernel_version : Option String
  os_version : Option String
  long_os_version : Option String
  host_name : Option String
  distribution_id : String
  first_cpu : Option CpuRaw
  physical_core_count : Option Nat

/-! ## The Monitor -/

structure Monitor where
  cpu_history : List ℚ
  memory_history : List Nat
  baseline_samples : Nat
  spike_threshold_multiplier : ℚ
  memory_leak_threshold : ℚ
  os_info : OsInfo
  cpu_info : CpuInfo

namespace Monitor

/-- `Monitor::new`: empty histories, `baseline_samples = 10`, spike multiplier
`2.0`, leak threshold `1.2`, with the static OS/CPU information collected once
(`unwrap_or`-style "Unknown" fallbacks as in the source). -/
def new (s : StaticSource) : Monitor where
  cpu_history := []
  memory_history := []
  baseline_samples := 10
  spike_threshold_multiplier := 2
  memory_leak_threshold := 6 / 5
  os_info :=
    { name := s.name.getD "Unknown"
      kernel_version := s.kernel_version.getD "Unknown"
      os_version := s.os_version.getD "Unknown"
      long_os_version := s.long_os_version.getD "Unknown"
      hostname := s.host_name.getD "Unknown"
      distribution_id := s.distribution_id }
  cpu_info :=
    match s.first_cpu with
    | some cpu =>
        { brand := cpu.brand
          vendor_id := cpu.vendor_id
          frequency_mhz := cpu.frequency
          physical_core_count := s.physical_core_count.getD 0 }
    | none =>
        { brand := "Unknown"
          vendor_id := "Unknown"
          frequency_mhz := 0
          physical_core_count := 0 }

/-- `Monitor::detect_cpu_spike`: inactive below `baseline_samples`; otherwise
flags iff the current sample exceeds `avg * spike_threshold_multiplier` and the
baseline average exceeds 5.0. -/
def detect_cpu_spike (m : Monitor) (current_cpu : ℚ) : Bool :=
  if m.cpu_history.length < m.baseline_samples then
    false
  else
    let avg : ℚ := m.cpu_history.sum / (m.cpu_history.length : ℚ)
    let threshold := avg * m.spike_threshold_multiplier
    decide (current_cpu > threshold ∧ avg > 5)

/-- `Monitor::detect_memory_leak`: inactive below `baseline_samples`; otherwise
the average is the integer (`u64`) division of the sample sum and the threshold
is `avg * memory_leak_threshold` truncated back to an integer (`as u64`). -/
def detect_memory_leak (m : Monitor) (current_memory : Nat) : Bool :=
  if m.memory_history.length < m.baseline_samples then
    false
  else
    let avg : Nat := m.memory_history.sum / m.memory_history.length
    let threshold : Nat := ((avg : ℚ) * m.memory_leak_threshold).floor.toNat
    decide (current_memory > threshold ∧ current_memory > avg)

end Monitor

/-- The HistoryWindow push: `push_back` the sample, then `pop_front` when the
length exceeds the capacity of 30 (lines 310-318 of the source, identical for
both windows). -/
def pushEvict {α : Type} (w : List α) (x : α) : List α :=
  let w' := w ++ [x]
  if w'.length > 30 then w'.tail else w'

/-- Disk usage percent as computed inside `collect_metrics` (lines 238-245):
spaces converted to GB, `used = total - available`, and the division guarded by
`total_space > 0.0`. Returns the pair (DiskMetrics fields are filled from it
in `collect_metrics`). -/
def diskUsagePercent (total_space_b available_space_b : Nat) : RF :=
  let total_space : ℚ := (total_space_b : ℚ) / 1073741824
  let available_space : ℚ := (available_space_b : ℚ) / 1073741824
  let used_space := total_space - available_space
  if total_space > 0 then
    RF.mul (RF.div (RF.fin used_space) (RF.fin total_space)) (RF.fin 100)
  else
    RF.fin 0

/-- Memory usage percent (line 229): `used as f32 / total as f32 * 100.0`,
with no zero-total guard. -/
def memoryUsagePercent (memory_used memory_total : Nat) : RF :=
  RF.mul (RF.div (RF.fin (memory_used : ℚ)) (RF.fin (memory_total : ℚ))) (RF.fin 100)

/-- The comparator passed to `sort_by` (line 277): descending CPU usage. -/
def procLe (a b : ProcRaw) : Bool :=
  decide (b.cpu_usage ≤ a.cpu_usage)

/-- `Monitor::collect_metrics`: assemble one snapshot from the refreshed
external reading, evaluate both detectors against the not-yet-updated
histories, then push the fresh samples (with eviction) and return the
snapshot together with the updated monitor. -/
def Monitor.collect_metrics (m : Monitor) (ext : ExternalReading) :
    SystemMetrics × Monitor :=
  let global_cpu := ext.global_cpu_usage
  let cpu_cores : List CoreMetrics :=
    ext.cpus.enum.map fun p => { core_id := p.1, usage_percent := p.2 }
  let memory_total := ext.total_memory / 1048576
  let memory_used := ext.used_memory / 1048576
  let memory_free := ext.free_memory / 1048576
  let memory_available := ext.available_memory / 1048576
  let memory_usage_percent := memoryUsagePercent memory_used memory_total
  let swap_total := ext.total_swap / 1048576
  let swap_used := ext.used_swap / 1048576
  let disks : List DiskMetrics :=
    ext.disks.map fun disk =>
      let total_space : ℚ := (disk.total_space : ℚ) / 1073741824
      let available_space : ℚ := (disk.available_space : ℚ) / 1073741824
      let used_space := total_space - available_space
      { name := disk.name
        mount_point := disk.mount_point
        total_space_gb := total_space
        available_space_gb := available_space
        used_space_gb := used_space
        usage_percent := diskUsagePercent disk.total_space disk.available_space
        is_removable := disk.is_removable
        disk_kind := disk.disk_kind
        file_system := disk.file_system }
  let network_interfaces : List NetworkMetrics :=
    ext.networks.map fun data =>
      { interface_name := data.interface_name
        bytes_received := data.total_received
        bytes_transmitted := data.total_transmitted
        packets_received := data.total_packets_received
        packets_transmitted := data.total_packets_transmitted
        errors_received := data.total_errors_on_received
        errors_transmitted := data.total_errors_on_transmitted }
  let processes := ext.processes.mergeSort procLe
  let top_processes : List ProcessMetrics :=
    (processes.take 10).map fun process =>
      { pid := process.pid
        name := process.name
        cpu_usage := process.cpu_usage
        memory_mb := process.memory / 1048576
        disk_read_bytes := process.read_bytes
        disk_write_bytes := process.written_bytes }
  let process_count := ext.processes.length
  let load_average : LoadAverage :=
    { one_minute := ext.load_one
      five_minutes := ext.load_five
      fifteen_minutes := ext.load_fifteen }
  let cpu_spike := m.detect_cpu_spike global_cpu
  let memory_leak := m.detect_memory_leak memory_used
  let cpu_history := pushEvict m.cpu_history global_cpu
  let memory_history := pushEvict m.memory_history memory_used
  let snapshot : SystemMetrics :=
    { timestamp := ext.now
      os_info := m.os_info
      cpu_usage_percent := global_cpu
      cpu_cores := cpu_cores
      cpu_info := m.cpu_info
      memory_total_mb := memory_total
      memory_used_mb := memory_used
      memory_free_mb := memory_free
      memory_available_mb := memory_available
      memory_usage_percent := memory_usage_percent
      swap_total_mb := swap_total
      swap_used_mb := swap_used
      disks := disks
      network_interfaces := network_interfaces
      process_count := process_count
      top_processes := top_processes
      load_average := load_average
      uptime_seconds := ext.uptime
      boot_time := ext.boot_time
      cpu_spike_detected := cpu_spike
      memory_leak_suspected := memory_leak }
  (snapshot, { m with cpu_history := cpu_history, memory_history := memory_history })

/-- The scheduler's steady-state loop restricted to monitor state: one
`collect_metrics` call per tick, keeping the updated monitor. -/
def runTicks (m : Monitor) (exts : List ExternalReading) : Monitor :=
  exts.foldl (fun acc ext => (acc.collect_metrics ext).2) m

/-! ## Helper constructions for the theorems -/

/-- A static source with nothing available (all fields take their fallback). -/
def defaultStatic : StaticSource where
  name := none
  kernel_version := none
  os_version := none
  long_os_version := none
  host_name := none
  distribution_id := ""
  first_cpu := none
  physical_core_count := none

/-- A monitor as constructed by `Monitor::new` (so with the production
configuration: baseline 10, multiplier 2.0, leak threshold 1.2, capacity 30)
whose histories have evolved to the given contents. -/
def mkMonitor (ch : List ℚ) (mh : List Nat) : Monitor :=
  { Monitor.new defaultStatic with cpu_history := ch, memory_history := mh }

/-- An external reading on which every source value is zero or empty (in
particular a machine reporting 0 bytes of total memory). -/
def extZero : ExternalReading where
  global_cpu_usage := 0
  cpus := []
  total_memory := 0
  used_memory := 0
  free_memory := 0
  available_memory := 0
  total_swap := 0
  used_swap := 0
  disks := []
  networks := []
  processes := []
  load_one := 0
  load_five := 0
  load_fifteen := 0
  uptime := 0
  boot_time := 0
  now := 0

/-- Ten memory samples summing to 10009 MB: the exact mean is 1000.9 but the
integer division in `detect_memory_leak` truncates it to 1000. -/
def mhTrunc : List Nat :=
  [1001, 1001, 1001, 1001, 1001, 1001, 1001, 1001, 1001, 1000]

/-! ## JSON serialization (serde derive + serde_json)

A `#[derive(Serialize, Deserialize)]` struct maps to a JSON object with one
member per field, in declaration order; integers and floats map to JSON
numbers, except that `serde_json` serializes a non-finite float (NaN or an
infinity) as `null`, and deserializing `null` back into an `f32`/`f64` field
fails with an invalid-type error.  JSON numbers are modelled as exact
rationals. -/

/-- A JSON value. -/
inductive J where
  | null
  | bool (b : Bool)
  | num (q : ℚ)
  | str (s : String)
  | arr (xs : List J)
  | obj (fields : List (String × J))

/-- Member access on a JSON object (serde matches members by name). -/
def J.getField (j : J) (k : String) : Option J :=
  match j with
  | J.obj fields => fields.lookup k
  | _ => none

/-- Serialize an unsigned integer field. -/
def encNat (n : Nat) : J := J.num n

/-- Serialize a float field whose value is finite. -/
def encQ (q : ℚ) : J := J.num q

/-- Serialize a float field: finite values become numbers; `serde_json` writes
NaN and the infinities as `null`. -/
def encRF : RF → J
  | RF.fin q => J.num q
  | _ => J.null

/-- Deserialize a string field. -/
def decStr : J → Option String
  | J.str s => some s
  | _ => none

/-- Deserialize a boolean field. -/
def decBool : J → Option Bool
  | J.bool b => some b
  | _ => none

/-- Deserialize a float field that the program stores as an exact rational. -/
def decQ : J → Option ℚ
  | J.num q => some q
  | _ => none

/-- Deserialize an unsigned integer field: the number must be a nonnegative
integer. -/
def decNat : J → Option Nat
  | J.num q => if q.den = 1 ∧ 0 ≤ q.num then some q.num.toNat else none
  | _ => none

/-- Deserialize a float field into the NaN-tracking model: a number becomes a
finite value; `null` (serde_json's spelling of a non-finite float) is an
invalid-type error for an `f32` field. -/
def decRF : J → Option RF
  | J.num q => some (RF.fin q)
  | _ => none

/-- Deserialize a sequence field elementwise. -/
def decArr {α : Type} (f : J → Option α) : J → Option (List α)
  | J.arr xs => xs.mapM f
  | _ => none

/-- Sequencing of fallible field decoders (`Option` bind: a missing or
ill-typed field aborts the whole record's decoding). -/
def obind {α β : Type} (o : Option α) (f : α → Option β) : Option β :=
  match o with
  | none => none
  | some a => f a

def encodeOsInfo (o : OsInfo) : J :=
  J.obj [("name", J.str o.name),
         ("kernel_version", J.str o.kernel_version),
         ("os_version", J.str o.os_version),
         ("long_os_version", J.str o.long_os_version),
         ("hostname", J.str o.hostname),
         ("distribution_id", J.str o.distribution_id)]

def decodeOsInfo (j : J) : Option OsInfo :=
  obind (j.getField ("name")) fun j1 =>
  obind (decStr j1) fun name =>
  obind (j.getField ("kernel_version")) fun j2 =>
  obind (decStr j2) fun kernel_version =>
  obind (j.getField ("os_version")) fun j3 =>
  obind (decStr j3) fun os_version =>
  obind (j.getField ("long_os_version")) fun j4 =>
  obind (decStr j4) fun long_os_version =>
  obind (j.getField ("hostname")) fun j5 =>
  obind (decStr j5) fun hostname =>
  obind (j.getField ("distribution_id")) fun j6 =>
  obind (decStr j6) fun distribution_id =>
  some { name, kernel_version, os_version, long_os_version, hostname,
         distribution_id }

def encodeCoreMetrics (c : CoreMetrics) : J :=
  J.obj [("core_id", encNat c.core_id),
         ("usage_percent", encQ c.usage_percent)]

def decodeCoreMetrics (j : J) : Option CoreMetrics :=
  obind (j.getField ("core_id")) fun j1 =>
  obind (decNat j1) fun core_id =>
  obind (j.getField ("usage_percent")) fun j2 =>
  obind (decQ j2) fun usage_percent =>
  some { core_id, usage_percent }

def encodeCpuInfo (c : CpuInfo) : J :=
  J.obj [("brand", J.str c.brand),
         ("vendor_id", J.str c.vendor_id),
         ("frequency_mhz", encNat c.frequency_mhz),
         ("physical_core_count", encNat c.physical_core_count)]

def decodeCpuInfo (j : J) : Option CpuInfo :=
  obind (j.getField ("brand")) fun j1 =>
  obind (decStr j1) fun brand =>
  obind (j.getField ("vendor_id")) fun j2 =>
  obind (decStr j2) fun vendor_id =>
  obind (j.getField ("frequency_mhz")) fun j3 =>
  obind (decNat j3) fun frequency_mhz =>
  obind (j.getField ("physical_core_count")) fun j4 =>
  obind (decNat j4) fun physical_core_count =>
  some { brand, vendor_id, frequency_mhz, physical_core_count }

def encodeDiskMetrics (d : DiskMetrics) : J :=
  J.obj [("name", J.str d.name),
         ("mount_point", J.str d.mount_point),
         ("total_space_gb", encQ d.total_space_gb),
         ("available_space_gb", encQ d.available_space_gb),
         ("used_space_gb", encQ d.used_space_gb),
         ("usage_percent", encRF d.usage_percent),
         ("is_removable", J.bool d.is_removable),
         ("disk_kind", J.str d.disk_kind),
         ("file_system", J.str d.file_system)]

def decodeDiskMetrics (j : J) : Option DiskMetrics :=
  obind (j.getField ("name")) fun j1 =>
  obind (decStr j1) fun name =>
  obind (j.getField ("mount_point")) fun j2 =>
  obind (decStr j2) fun mount_point =>
  obind (j.getField ("total_space_gb")) fun j3 =>
  obind (decQ j3) fun total_space_gb =>
  obind (j.getField ("available_space_gb")) fun j4 =>
  obind (decQ j4) fun available_space_gb =>
  obind (j.getField ("used_space_gb")) fun j5 =>
  obind (decQ j5) fun used_space_gb =>
  obind (j.getField ("usage_percent")) fun j6 =>
  obind (decRF j6) fun usage_percent =>
  obind (j.getField ("is_removable")) fun j7 =>
  obind (decBool j7) fun is_removable =>
  obind (j.getField ("disk_kind")) fun j8 =>
  obind (decStr j8) fun disk_kind =>
  obind (j.getField ("file_system")) fun j9 =>
  obind (decStr j9) fun file_system =>
  some { name, mount_point, total_space_gb, available_space_gb, used_space_gb,
         usage_percent, is_removable, disk_kind, file_system }

def encodeNetworkMetrics (n : NetworkMetrics) : J :=
  J.obj [("interface_name", J.str n.interface_name),
         ("bytes_received", encNat n.bytes_received),
         ("bytes_transmitted", encNat n.bytes_transmitted),
         ("packets_received", encNat n.packets_received),
         ("packets_transmitted", encNat n.packets_transmitted),
         ("errors_received", encNat n.errors_received),
         ("errors_transmitted", encNat n.errors_transmitted)]

def decodeNetworkMetrics (j : J) : Option NetworkMetrics :=
  obind (j.getField ("interface_name")) fun j1 =>
  obind (decStr j1) fun interface_name =>
  obind (j.getField ("bytes_received")) fun j2 =>
  obind (decNat j2) fun bytes_received =>
  obind (j.getField ("bytes_transmitted")) fun j3 =>
  obind (decNat j3) fun bytes_transmitted =>
  obind (j.getField ("packets_received")) fun j4 =>
  obind (decNat j4) fun packets_received =>
  obind (j.getField ("packets_transmitted")) fun j5 =>
  obind (decNat j5) fun packets_transmitted =>
  obind (j.getField ("errors_received")) fun j6 =>
  obind (decNat j6) fun errors_received =>
  obind (j.getField ("errors_transmitted")) fun j7 =>
  obind (decNat j7) fun errors_transmitted =>
  some { interface_name, bytes_received, bytes_transmitted, packets_received,
         packets_transmitted, errors_received, errors_transmitted }

def encodeProcessMetrics (p : ProcessMetrics) : J :=
  J.obj [("pid", encNat p.pid),
         ("name", J.str p.name),
         ("cpu_usage", encQ p.cpu_usage),
         ("memory_mb", encNat p.memory_mb),
         ("disk_read_bytes", encNat p.disk_read_bytes),
         ("disk_write_bytes", encNat p.disk_write_bytes)]

def decodeProcessMetrics (j : J) : Option ProcessMetrics :=
  obind (j.getField ("pid")) fun j1 =>
  obind (decNat j1) fun pid =>
  obind (j.getField ("name")) fun j2 =>
  obind (decStr j2) fun name =>
  obind (j.getField ("cpu_usage")) fun j3 =>
  obind (decQ j3) fun cpu_usage =>
  obind (j.getField ("memory_mb")) fun j4 =>
  obind (decNat j4) fun memory_mb =>
  obind (j.getField ("disk_read_bytes")) fun j5 =>
  obind (decNat j5) fun disk_read_bytes =>
  obind (j.getField ("disk_write_bytes")) fun j6 =>
  obind (decNat j6) fun disk_write_bytes =>
  some { pid, name, cpu_usage, memory_mb, disk_read_bytes, disk_write_bytes }

def encodeLoadAverage (l : LoadAverage) : J :=
  J.obj [("one_minute", encQ l.one_minute),
         ("five_minutes", encQ l.five_minutes),
         ("fifteen_minutes", encQ l.fifteen_minutes)]

def decodeLoadAverage (j : J) : Option LoadAverage :=
  obind (j.getField ("one_minute")) fun j1 =>
  obind (decQ j1) fun one_minute =>
  obind (j.getField ("five_minutes")) fun j2 =>
  obind (decQ j2) fun five_minutes =>
  obind (j.getField ("fifteen_minutes")) fun j3 =>
  obind (decQ j3) fun fifteen_minutes =>
  some { one_minute, five_minutes, fifteen_minutes }

/-- `serde_json::to_string` on a `SystemMetrics` value (structure modulo
concrete number/string formatting): one JSON object with the struct's fields
in declaration order. -/
def encodeMetrics (s : SystemMetrics) : J :=
  J.obj [("timestamp", encNat s.timestamp),
         ("os_info", encodeOsInfo s.os_info),
         ("cpu_usage_percent", encQ s.cpu_usage_percent),
         ("cpu_cores", J.arr (s.cpu_cores.map encodeCoreMetrics)),
         ("cpu_info", encodeCpuInfo s.cpu_info),
         ("memory_total_mb", encNat s.memory_total_mb),
         ("memory_used_mb", encNat s.memory_used_mb),
         ("memory_free_mb", encNat s.memory_free_mb),
         ("memory_available_mb", encNat s.memory_available_mb),
         ("memory_usage_percent", encRF s.memory_usage_percent),
         ("swap_total_mb", encNat s.swap_total_mb),
         ("swap_used_mb", encNat s.swap_used_mb),
         ("disks", J.arr (s.disks.map encodeDiskMetrics)),
         ("network_interfaces", J.arr (s.network_interfaces.map encodeNetworkMetrics)),
         ("process_count", encNat s.process_count),
         ("top_processes", J.arr (s.top_processes.map encodeProcessMetrics)),
         ("load_average", encodeLoadAverage s.load_average),
         ("uptime_seconds", encNat s.uptime_seconds),
         ("boot_time", encNat s.boot_time),
         ("cpu_spike_detected", J.bool s.cpu_spike_detected),
         ("memory_leak_suspected", J.bool s.memory_leak_suspected)]

/-- The serde-derived `Deserialize` for `SystemMetrics` applied to a JSON
value: every field must be present and of the right type. -/
def decodeMetrics (j : J) : Option SystemMetrics :=
  obind (j.getField ("timestamp")) fun j1 =>
  obind (decNat j1) fun timestamp =>
  obind (j.getField ("os_info")) fun j2 =>
  obind (decodeOsInfo j2) fun os_info =>
  obind (j.getField ("cpu_usage_percent")) fun j3 =>
  obind (decQ j3) fun cpu_usage_percent =>
  obind (j.getField ("cpu_cores")) fun j4 =>
  obind (decArr decodeCoreMetrics j4) fun cpu_cores =>
  obind (j.getField ("cpu_info")) fun j5 =>
  obind (decodeCpuInfo j5) fun cpu_info =>
  obind (j.getField ("memory_total_mb")) fun j6 =>
  obind (decNat j6) fun memory_total_mb =>
  obind (j.getField ("memory_used_mb")) fun j7 =>
  obind (decNat j7) fun memory_used_mb =>
  obind (j.getField ("memory_free_mb")) fun j8 =>
  obind (decNat j8) fun memory_free_mb =>
  obind (j.getField ("memory_available_mb")) fun j9 =>
  obind (decNat j9) fun memory_available_mb =>
  obind (j.getField ("memory_usage_percent")) fun j10 =>
  obind (decRF j10) fun memory_usage_percent =>
  obind (j.getField ("swap_total_mb")) fun j11 =>
  obind (decNat j11) fun swap_total_mb =>
  obind (j.getField ("swap_used_mb")) fun j12 =>
  obind (decNat j12) fun swap_used_mb =>
  obind (j.getField ("disks")) fun j13 =>
  obind (decArr decodeDiskMetrics j13) fun disks =>
  obind (j.getField ("network_interfaces")) fun j14 =>
  obind (decArr decodeNetworkMetrics j14) fun network_interfaces =>
  obind (j.getField ("process_count")) fun j15 =>
  obind (decNat j15) fun process_count =>
  obind (j.getField ("top_processes")) fun j16 =>
  obind (decArr decodeProcessMetrics j16) fun top_processes =>
  obind (j.getField ("load_average")) fun j17 =>
  obind (decodeLoadAverage j17) fun load_average =>
  obind (j.getField ("uptime_seconds")) fun j18 =>
  obind (decNat j18) fun uptime_seconds =>
  obind (j.getField ("boot_time")) fun j19 =>
  obind (decNat j19) fun boot_time =>
  obind (j.getField ("cpu_spike_detected")) fun j20 =>
  obind (decBool j20) fun cpu_spike_detected =>
  obind (j.getField ("memory_leak_suspected")) fun j21 =>
  obind (decBool j21) fun memory_leak_suspected =>
  some { timestamp, os_info, cpu_usage_percent, cpu_cores, cpu_info,
         memory_total_mb, memory_used_mb, memory_free_mb, memory_available_mb,
         memory_usage_percent, swap_total_mb, swap_used_mb, disks,
         network_interfaces, process_count, top_processes, load_average,
         uptime_seconds, boot_time, cpu_spike_detected, memory_leak_suspected }

/-- A concrete snapshot whose float fields are all finite. -/
def sampleSnapshot : SystemMetrics where
  timestamp := 1700000000
  os_info :=
    { name := "Linux", kernel_version := "6.1", os_version := "12",
      long_os_version := "Linux 12", hostname := "host",
      distribution_id := "debian" }
  cpu_usage_percent := 7/2
  cpu_cores := [{ core_id := 0, usage_percent := 7/2 }]
  cpu_info :=
    { brand := "cpu", vendor_id := "vendor", frequency_mhz := 2400,
      physical_core_count := 1 }
  memory_total_mb := 16384
  memory_used_mb := 8192
  memory_free_mb := 4096
  memory_available_mb := 8192
  memory_usage_percent := RF.fin 50
  swap_total_mb := 0
  swap_used_mb := 0
  disks := [{ name := "sda", mount_point := "/", total_space_gb := 100,
              available_space_gb := 40, used_space_gb := 60,
              usage_percent := RF.fin 60, is_removable := false,
              disk_kind := "SSD", file_system := "ext4" }]
  network_interfaces := [{ interface_name := "eth0", bytes_received := 1,
                           bytes_transmitted := 2, packets_received := 3,
                           packets_transmitted := 4, errors_received := 0,
                           errors_transmitted := 0 }]
  process_count := 1
  top_processes := [{ pid := 1, name := "init", cpu_usage := 0,
                      memory_mb := 10, disk_read_bytes := 0,
                      disk_write_bytes := 0 }]
  load_average := { one_minute := 1/2, five_minutes := 1/4,
                    fifteen_minutes := 0 }
  uptime_seconds := 1000
  boot_time := 1699999000
  cpu_spike_detected := false
  memory_leak_suspected := true

/-- The same snapshot with the unguarded `memory_usage_percent` field NaN, as
`collect_metrics` produces on a reading with 0 MB of total memory. -/
def nanSnapshot : SystemMetrics :=
  { sampleSnapshot with memory_usage_percent := RF.nan }

/-! ## C1: detection happens strictly before the push -/

/-- C1: on every tick, both anomaly flags in the returned snapshot are the
detectors evaluated on the pre-push histories, and the post-tick histories are
the pre-tick histories with exactly the fresh CPU and memory samples appended
(with eviction). -/
theorem collect_metrics_detects_before_push (m : Monitor) (ext : ExternalReading) :
    (m.collect_metrics ext).1.cpu_spike_detected
        = m.detect_cpu_spike ext.global_cpu_usage ∧
    (m.collect_metrics ext).1.memory_leak_suspected
        = m.detect_memory_leak (ext.used_memory / 1048576) ∧
    (m.collect_metrics ext).2.cpu_history
        = pushEvict m.cpu_history ext.global_cpu_usage ∧
    (m.collect_metrics ext).2.memory_history
        = pushEvict m.memory_history (ext.used_memory / 1048576) :=
  ⟨rfl, rfl, rfl, rfl⟩

/-! ## C2: the CPU spike rule -/

/-- C2: with at least 10 samples of history, the CPU spike rule fires iff the
current sample exceeds twice the mean and the mean exceeds 5.0; in particular
it never fires when the mean is at most 5.0, however large the sample. -/
theorem detect_cpu_spike_iff (ch : List ℚ) (mh : List Nat) (c : ℚ)
    (h10 : 10 ≤ ch.length) :
    ((mkMonitor ch mh).detect_cpu_spike c = true ↔
      c > ch.sum / (ch.length : ℚ) * 2 ∧ ch.sum / (ch.length : ℚ) > 5) ∧
    (ch.sum / (ch.length : ℚ) ≤ 5 → (mkMonitor ch mh).detect_cpu_spike c = false) := by
  have hiff : (mkMonitor ch mh).detect_cpu_spike c = true ↔
      c > ch.sum / (ch.length : ℚ) * 2 ∧ ch.sum / (ch.length : ℚ) > 5 := by
    unfold Monitor.detect_cpu_spike
    have hnot : ¬ ((mkMonitor ch mh).cpu_history.length
        < (mkMonitor ch mh).baseline_samples) := by
      show ¬ (ch.length < 10)
      omega
    rw [if_neg hnot]
    show decide (c > ch.sum / (ch.length : ℚ) * 2 ∧ ch.sum / (ch.length : ℚ) > 5)
        = true ↔ _
    simp
  refine ⟨hiff, fun h5 => ?_⟩
  cases hdet : (mkMonitor ch mh).detect_cpu_spike c with
  | false => rfl
  | true => exact absurd (hiff.mp hdet).2 (not_lt.mpr h5)

/-- Witness for C2 at the spec's concrete inputs: ten samples of mean 10.0,
current 21.0 fires, current 19.0 does not. -/
theorem detect_cpu_spike_iff_witness :
    (mkMonitor (List.replicate 10 (10 : ℚ)) []).detect_cpu_spike 21 = true ∧
    (mkMonitor (List.replicate 10 (10 : ℚ)) []).detect_cpu_spike 19 = false := by
  have hsum : (List.replicate 10 (10 : ℚ)).sum = 100 := by
    norm_num [List.sum_replicate]
  have hlen : (List.replicate 10 (10 : ℚ)).length = 10 := by simp
  constructor
  · apply (detect_cpu_spike_iff (List.replicate 10 (10 : ℚ)) [] 21 (by simp)).1.mpr
    rw [hsum, hlen]
    norm_num
  · have hiff := (detect_cpu_spike_iff (List.replicate 10 (10 : ℚ)) [] 19 (by simp)).1
    rw [hsum, hlen] at hiff
    refine Bool.eq_false_iff.mpr fun h => ?_
    have h19 := hiff.mp h
    norm_num at h19

/-! ## C4: both rules are inactive before the baseline fills -/

/-- C4: with fewer than 10 samples in the respective window, both the CPU
spike rule and the memory leak rule return false for every current sample. -/
theorem detectors_inactive_before_baseline (ch : List ℚ) (mh : List Nat)
    (c : ℚ) (cm : Nat) (hc : ch.length < 10) (hm : mh.length < 10) :
    (mkMonitor ch mh).detect_cpu_spike c = false ∧
    (mkMonitor ch mh).detect_memory_leak cm = false := by
  constructor
  · unfold Monitor.detect_cpu_spike
    exact if_pos (show ch.length < 10 from hc)
  · unfold Monitor.detect_memory_leak
    exact if_pos (show mh.length < 10 from hm)

/-- Witness for C4: a window of nine huge samples and a huge current sample
still yield false on both rules. -/
theorem detectors_inactive_before_baseline_witness :
    (mkMonitor (List.replicate 9 (1000000 : ℚ)) (List.replicate 9 1000000)).detect_cpu_spike 1000000000 = false ∧
    (mkMonitor (List.replicate 9 (1000000 : ℚ)) (List.replicate 9 1000000)).detect_memory_leak 1000000000 = false :=
  detectors_inactive_before_baseline _ _ _ _ (by decide) (by decide)

/-! ## C5: the window is bounded and keeps the most recent samples -/

/-- Length of a push: one more sample, capped by the eviction at capacity 30. -/
lemma pushEvict_length {α : Type} (w : List α) (x : α) (h : w.length ≤ 30) :
    (pushEvict w x).length = min (w.length + 1) 30 := by
  show (if (w ++ [x]).length > 30 then (w ++ [x]).tail else w ++ [x]).length
      = min (w.length + 1) 30
  split
  · rename_i h'
    simp only [List.length_append, List.length_cons, List.length_nil] at h'
    simp only [List.length_tail, List.length_append, List.length_cons, List.length_nil]
    omega
  · rename_i h'
    simp only [List.length_append, List.length_cons, List.length_nil] at h' ⊢
    omega

/-- Folding pushes over an empty window leaves exactly the samples past the
first `length - 30`, i.e. the 30 most recent ones in insertion order. -/
lemma foldl_pushEvict_eq {α : Type} (xs : List α) :
    xs.foldl pushEvict [] = xs.drop (xs.length - 30) := by
  induction xs using List.reverseRecOn with
  | nil => simp
  | append_singleton xs x ih =>
    rw [List.foldl_append, ih]
    simp only [List.foldl_cons, List.foldl_nil]
    by_cases h : xs.length < 30
    · have h0 : xs.length - 30 = 0 := by omega
      have h1 : (xs ++ [x]).length - 30 = 0 := by
        simp only [List.length_append, List.length_cons, List.length_nil]
        omega
      rw [h0, h1, List.drop_zero, List.drop_zero]
      unfold pushEvict
      rw [if_neg (by
        simp only [List.length_append, List.length_cons, List.length_nil]
        omega)]
    · have hlen : (xs.drop (xs.length - 30)).length = 30 := by
        simp only [List.length_drop]
        omega
      unfold pushEvict
      rw [if_pos (by
        simp only [List.length_append, List.length_cons, List.length_nil, hlen]
        omega)]
      obtain ⟨y, d', hd⟩ : ∃ y d', xs.drop (xs.length - 30) = y :: d' := by
        cases hh : xs.drop (xs.length - 30) with
        | nil => rw [hh] at hlen; simp at hlen
        | cons y d' => exact ⟨y, d', rfl⟩
      have hd' : d' = xs.drop (xs.length - 30 + 1) := by
        have ht := congrArg List.tail hd
        rw [List.tail_drop] at ht
        simpa using ht.symm
      rw [hd]
      simp only [List.cons_append, List.tail_cons]
      have hk : (xs ++ [x]).length - 30 = xs.length - 30 + 1 := by
        simp only [List.length_append, List.length_cons, List.length_nil]
        omega
      rw [hk, List.drop_append_of_le_length (by omega), ← hd']

/-- C5: for every sequence of pushes into an initially empty HistoryWindow the
length never exceeds the capacity of 30, and the window contents are exactly
the 30 most recent samples in insertion order (the oldest being evicted on a
push past capacity). -/
theorem history_window_bounded_and_recent {α : Type} (xs : List α) :
    (xs.foldl pushEvict []).length ≤ 30 ∧
    xs.foldl pushEvict [] = xs.drop (xs.length - 30) := by
  refine ⟨?_, foldl_pushEvict_eq xs⟩
  rw [foldl_pushEvict_eq]
  simp only [List.length_drop]
  omega

/-! ## C9: both histories always have length `min ticks 30` -/

/-- One tick from a state whose histories are within capacity grows each
history length by one, capped at 30. -/
lemma runTicks_history_lengths : ∀ (exts : List ExternalReading) (m : Monitor),
    m.cpu_history.length ≤ 30 → m.memory_history.length ≤ 30 →
    (runTicks m exts).cpu_history.length
        = min (m.cpu_history.length + exts.length) 30 ∧
    (runTicks m exts).memory_history.length
        = min (m.memory_history.length + exts.length) 30
  | [], m, hc, hm => by
    constructor <;> simp [runTicks] <;> omega
  | ext :: exts, m, hc, hm => by
    have hcs : (m.collect_metrics ext).2.cpu_history
        = pushEvict m.cpu_history ext.global_cpu_usage := rfl
    have hms : (m.collect_metrics ext).2.memory_history
        = pushEvict m.memory_history (ext.used_memory / 1048576) := rfl
    have hlc := pushEvict_length m.cpu_history ext.global_cpu_usage hc
    have hlm := pushEvict_length m.memory_history (ext.used_memory / 1048576) hm
    have ih := runTicks_history_lengths exts (m.collect_metrics ext).2
      (by rw [hcs, hlc]; omega) (by rw [hms, hlm]; omega)
    have hstep : runTicks m (ext :: exts) = runTicks (m.collect_metrics ext).2 exts := rfl
    rw [hstep]
    refine ⟨?_, ?_⟩
    · rw [ih.1, hcs, hlc]
      simp only [List.length_cons]
      omega
    · rw [ih.2, hms, hlm]
      simp only [List.length_cons]
      omega

/-- C9: starting from `Monitor::new`'s empty windows, after any number of
ticks the CPU history and the memory history both have length
`min ticks 30`, and in particular always equal lengths. -/
theorem runTicks_histories_same_length (s : StaticSource) (exts : List ExternalReading) :
    (runTicks (Monitor.new s) exts).cpu_history.length = min exts.length 30 ∧
    (runTicks (Monitor.new s) exts).memory_history.length = min exts.length 30 ∧
    (runTicks (Monitor.new s) exts).cpu_history.length
        = (runTicks (Monitor.new s) exts).memory_history.length := by
  have h := runTicks_history_lengths exts (Monitor.new s)
    (by simp [Monitor.new]) (by simp [Monitor.new])
  have hc : (Monitor.new s).cpu_history = [] := rfl
  have hm : (Monitor.new s).memory_history = [] := rfl
  rw [hc, hm] at h
  simp only [List.length_nil, Nat.zero_add] at h
  exact ⟨h.1, h.2, h.1.trans h.2.symm⟩

/-! ## C3: the memory leak rule and its truncation direction -/

/-- The truncated threshold `(avg as f32 * 1.2) as u64` equals the integer
division `6 * avg / 5`. -/
lemma leak_threshold_eq (avg : Nat) :
    ((avg : ℚ) * (6 / 5)).floor.toNat = 6 * avg / 5 := by
  have h0 : ((avg : ℚ) * (6 / 5)).floor = ⌊(avg : ℚ) * (6 / 5)⌋ := rfl
  have h1 : (avg : ℚ) * (6 / 5) = ((6 * avg : Nat) : ℚ) / ((5 : Nat) : ℚ) := by
    push_cast
    ring
  rw [h0, h1, Int.floor_toNat, Nat.floor_div_nat, Nat.floor_natCast]

/-- With production configuration and at least 10 samples, the leak rule fires
iff the current sample exceeds the truncated threshold and the truncated
average. -/
lemma detect_memory_leak_iff_aux (mh : List Nat) (ch : List ℚ) (c : Nat)
    (h10 : 10 ≤ mh.length) :
    ((mkMonitor ch mh).detect_memory_leak c = true ↔
      6 * (mh.sum / mh.length) / 5 < c ∧ mh.sum / mh.length < c) := by
  unfold Monitor.detect_memory_leak
  have hnot : ¬ ((mkMonitor ch mh).memory_history.length
      < (mkMonitor ch mh).baseline_samples) := by
    show ¬ (mh.length < 10)
    omega
  rw [if_neg hnot]
  show decide (c > (((mh.sum / mh.length : Nat) : ℚ) * (6 / 5)).floor.toNat ∧
      c > mh.sum / mh.length) = true ↔ _
  rw [leak_threshold_eq]
  simp

/-- C3 (amended): with at least 10 samples, the memory leak rule fires iff the
current sample exceeds the floor-truncated threshold `⌊avg * 1.2⌋` and the
truncated average `avg = ⌊sum / len⌋`; and the truncation direction never
makes detection LESS sensitive than the full-precision rule: whenever the
current sample exceeds `mean * 1.2` computed exactly, the rule fires (it can
additionally fire on samples the full-precision threshold would not flag). -/
theorem detect_memory_leak_rule (mh : List Nat) (ch : List ℚ) (c : Nat)
    (h10 : 10 ≤ mh.length) :
    ((mkMonitor ch mh).detect_memory_leak c = true ↔
      6 * (mh.sum / mh.length) / 5 < c ∧ mh.sum / mh.length < c) ∧
    ((mh.sum : ℚ) / (mh.length : ℚ) * (6 / 5) < (c : ℚ) →
      (mkMonitor ch mh).detect_memory_leak c = true) := by
  refine ⟨detect_memory_leak_iff_aux mh ch c h10, fun hfull => ?_⟩
  have hlen : (0 : ℚ) < (mh.length : ℚ) := by
    have : 0 < mh.length := by omega
    exact_mod_cast this
  have hmean0 : (0 : ℚ) ≤ (mh.sum : ℚ) / (mh.length : ℚ) := by positivity
  have havg : ((mh.sum / mh.length : Nat) : ℚ) ≤ (mh.sum : ℚ) / (mh.length : ℚ) :=
    Nat.cast_div_le
  apply (detect_memory_leak_iff_aux mh ch c h10).mpr
  constructor
  · have hthr : ((6 * (mh.sum / mh.length) / 5 : Nat) : ℚ)
        ≤ ((mh.sum / mh.length : Nat) : ℚ) * (6 / 5) := by
      calc ((6 * (mh.sum / mh.length) / 5 : Nat) : ℚ)
          ≤ ((6 * (mh.sum / mh.length) : Nat) : ℚ) / ((5 : Nat) : ℚ) := Nat.cast_div_le
        _ = ((mh.sum / mh.length : Nat) : ℚ) * (6 / 5) := by push_cast; ring
    have hq : ((6 * (mh.sum / mh.length) / 5 : Nat) : ℚ) < (c : ℚ) :=
      lt_of_le_of_lt (hthr.trans (by nlinarith)) hfull
    exact_mod_cast hq
  · have hq : ((mh.sum / mh.length : Nat) : ℚ) < (c : ℚ) := by
      have h1 : (mh.sum : ℚ) / (mh.length : ℚ)
          ≤ (mh.sum : ℚ) / (mh.length : ℚ) * (6 / 5) := by nlinarith
      exact lt_of_le_of_lt (havg.trans h1) hfull
    exact_mod_cast hq

/-- Witness for C3 at the spec's concrete inputs: ten samples of mean 1000,
current 1201 fires, current 1199 does not. -/
theorem detect_memory_leak_rule_witness :
    (mkMonitor [] (List.replicate 10 1000)).detect_memory_leak 1201 = true ∧
    (mkMonitor [] (List.replicate 10 1000)).detect_memory_leak 1199 = false := by
  have hsum : (List.replicate 10 (1000 : Nat)).sum = 10000 := by
    norm_num [List.sum_replicate]
  have h1201 := (detect_memory_leak_rule (List.replicate 10 1000) [] 1201 (by simp)).1
  have h1199 := (detect_memory_leak_rule (List.replicate 10 1000) [] 1199 (by simp)).1
  rw [hsum] at h1201 h1199
  simp only [List.length_replicate] at h1201 h1199
  constructor
  · exact h1201.mpr (by norm_num)
  · refine Bool.eq_false_iff.mpr fun h => ?_
    have := h1199.mp h
    norm_num at this

/-- C3 counterexample: for ten samples of exact mean 1000.9 the truncated rule
fires at the current sample 1201 even though 1201 does not exceed the
full-precision threshold 1000.9 * 1.2 = 1201.08 — the truncation direction
makes detection MORE sensitive than the full-precision threshold. -/
theorem detect_memory_leak_truncation_counterexample :
    (mkMonitor [] mhTrunc).detect_memory_leak 1201 = true ∧
    ¬ ((mhTrunc.sum : ℚ) / (mhTrunc.length : ℚ) * (6 / 5) < (1201 : ℚ)) := by
  have hsum : mhTrunc.sum = 10009 := by norm_num [mhTrunc]
  have hlen : mhTrunc.length = 10 := by norm_num [mhTrunc]
  constructor
  · apply (detect_memory_leak_iff_aux mhTrunc [] 1201 (by rw [hlen])).mpr
    rw [hsum, hlen]
    norm_num
  · rw [hsum, hlen]
    norm_num

/-! ## C6: disk usage percent is guarded against zero total space -/

/-- Finite division with a nonzero divisor stays finite and exact. -/
lemma RF.div_fin_fin (x y : ℚ) (hy : y ≠ 0) :
    RF.div (RF.fin x) (RF.fin y) = RF.fin (x / y) := by
  simp [RF.div, hy]

/-- Finite multiplication is exact. -/
lemma RF.mul_fin_fin (x y : ℚ) :
    RF.mul (RF.fin x) (RF.fin y) = RF.fin (x * y) := rfl

/-- C6: a disk with total space 0 reports exactly 0% usage (a finite value,
never NaN or an infinity); a disk with positive total space reports exactly
`(total - available) / total * 100`, and every disk record's used space is
total minus available. -/
theorem disk_usage_percent_spec (t a : Nat) (m : Monitor) (ext : ExternalReading) :
    (t = 0 → diskUsagePercent t a = RF.fin 0) ∧
    (0 < t → diskUsagePercent t a
        = RF.fin (((t : ℚ) - (a : ℚ)) / (t : ℚ) * 100)) ∧
    (∃ q, diskUsagePercent t a = RF.fin q) ∧
    (∀ dm ∈ (m.collect_metrics ext).1.disks,
      dm.used_space_gb = dm.total_space_gb - dm.available_space_gb) := by
  have hzero : t = 0 → diskUsagePercent t a = RF.fin 0 := by
    intro ht
    subst ht
    simp [diskUsagePercent]
  have hpos : 0 < t → diskUsagePercent t a
      = RF.fin (((t : ℚ) - (a : ℚ)) / (t : ℚ) * 100) := by
    intro ht
    have htq : (0 : ℚ) < (t : ℚ) / 1073741824 := by positivity
    unfold diskUsagePercent
    rw [if_pos htq]
    have hne : (t : ℚ) / 1073741824 ≠ 0 := ne_of_gt htq
    show RF.mul (RF.div (RF.fin ((t : ℚ) / 1073741824 - (a : ℚ) / 1073741824))
        (RF.fin ((t : ℚ) / 1073741824))) (RF.fin 100) = _
    rw [RF.div_fin_fin _ _ hne, RF.mul_fin_fin]
    congr 1
    have htne : (t : ℚ) ≠ 0 := by positivity
    field_simp
  refine ⟨hzero, hpos, ?_, ?_⟩
  · rcases Nat.eq_zero_or_pos t with ht | ht
    · exact ⟨0, hzero ht⟩
    · exact ⟨_, hpos ht⟩
  · intro dm hdm
    have hdm' : dm ∈ ext.disks.map (fun disk =>
        ({ name := disk.name
           mount_point := disk.mount_point
           total_space_gb := (disk.total_space : ℚ) / 1073741824
           available_space_gb := (disk.available_space : ℚ) / 1073741824
           used_space_gb := (disk.total_space : ℚ) / 1073741824
               - (disk.available_space : ℚ) / 1073741824
           usage_percent := diskUsagePercent disk.total_space disk.available_space
           is_removable := disk.is_removable
           disk_kind := disk.disk_kind
           file_system := disk.file_system } : DiskMetrics)) := hdm
    rcases List.mem_map.mp hdm' with ⟨d, _, rfl⟩
    rfl

/-- Witness for C6: a zero-capacity disk reports 0%, and a 2 GiB disk with
1 GiB available reports 50%. -/
theorem disk_usage_percent_witness :
    diskUsagePercent 0 5 = RF.fin 0 ∧
    diskUsagePercent 2147483648 1073741824 = RF.fin 50 := by
  constructor
  · exact (disk_usage_percent_spec 0 5 (Monitor.new defaultStatic) extZero).1 rfl
  · have h := (disk_usage_percent_spec 2147483648 1073741824
      (Monitor.new defaultStatic) extZero).2.1 (by norm_num)
    rw [h]
    norm_num

/-! ## C7: top processes are the 10 highest CPU consumers, sorted -/

/-- C7: the snapshot's `top_processes` has length `min 10 N` for `N` source
processes, is sorted in descending order of CPU usage, and `process_count`
equals `N`. -/
theorem top_processes_spec (m : Monitor) (ext : ExternalReading) :
    (m.collect_metrics ext).1.top_processes.length = min 10 ext.processes.length ∧
    List.Pairwise (fun a b : ProcessMetrics => b.cpu_usage ≤ a.cpu_usage)
      (m.collect_metrics ext).1.top_processes ∧
    (m.collect_metrics ext).1.process_count = ext.processes.length := by
  have htop : (m.collect_metrics ext).1.top_processes
      = ((ext.processes.mergeSort procLe).take 10).map (fun process =>
          ({ pid := process.pid
             name := process.name
             cpu_usage := process.cpu_usage
             memory_mb := process.memory / 1048576
             disk_read_bytes := process.read_bytes
             disk_write_bytes := process.written_bytes } : ProcessMetrics)) := rfl
  refine ⟨?_, ?_, rfl⟩
  · rw [htop]
    simp [List.length_take, List.length_mergeSort]
  · rw [htop]
    have htrans : ∀ a b c : ProcRaw,
        procLe a b = true → procLe b c = true → procLe a c = true :=
      fun _ _ _ hab hbc =>
        decide_eq_true (le_trans (of_decide_eq_true hbc) (of_decide_eq_true hab))
    have htotal : ∀ a b : ProcRaw, (procLe a b || procLe b a) = true := by
      intro a b
      simp only [procLe, Bool.or_eq_true, decide_eq_true_eq]
      exact le_total _ _
    have hsorted := List.sorted_mergeSort htrans htotal ext.processes
    have h1 : List.Pairwise (fun a b : ProcRaw => b.cpu_usage ≤ a.cpu_usage)
        (ext.processes.mergeSort procLe) :=
      hsorted.imp (fun h => of_decide_eq_true h)
    have h2 := h1.sublist (List.take_sublist 10 _)
    exact List.pairwise_map.mpr h2

/-! ## C10: memory usage percent has no zero-total guard -/

/-- C10: the memory usage percent is `used / total * 100` with no zero-total
guard: a reading with 0 MB of total (and used) memory makes the snapshot field
NaN (from 0/0) rather than 0, unlike the zero-guarded disk usage percent which
yields exactly 0 on a zero-capacity disk. -/
theorem memory_usage_percent_nan :
    ((Monitor.new defaultStatic).collect_metrics extZero).1.memory_usage_percent
        = RF.nan ∧
    memoryUsagePercent 0 0 = RF.nan ∧
    diskUsagePercent 0 0 = RF.fin 0 := by
  refine ⟨?_, ?_, ?_⟩
  · show memoryUsagePercent (extZero.used_memory / 1048576)
        (extZero.total_memory / 1048576) = RF.nan
    simp [extZero, memoryUsagePercent, RF.div, RF.mul]
  · simp [memoryUsagePercent, RF.div, RF.mul]
  · simp [diskUsagePercent]

/-! ## C8: JSON round-trip -/

/-- Integer fields round-trip through JSON numbers. -/
lemma decNat_encNat (n : Nat) : decNat (encNat n) = some n := by
  simp [decNat, encNat, Rat.den_natCast, Rat.num_natCast]

lemma decodeOsInfo_enc (o : OsInfo) :
    decodeOsInfo (encodeOsInfo o) = some o := rfl

lemma decodeCoreMetrics_enc (c : CoreMetrics) :
    decodeCoreMetrics (encodeCoreMetrics c) = some c := by
  cases c with
  | mk core_id usage_percent =>
    simp [decodeCoreMetrics, encodeCoreMetrics, J.getField, List.lookup, obind,
      decNat_encNat, encQ, decQ]

lemma decodeCpuInfo_enc (c : CpuInfo) :
    decodeCpuInfo (encodeCpuInfo c) = some c := by
  cases c with
  | mk brand vendor_id frequency_mhz physical_core_count =>
    simp [decodeCpuInfo, encodeCpuInfo, J.getField, List.lookup, obind, decNat_encNat,
      decStr]

/-- A disk record round-trips when its usage percent is finite (an infinite or
NaN percent would serialize to `null` and fail to decode). -/
lemma decodeDiskMetrics_enc (d : DiskMetrics)
    (h : ∃ q, d.usage_percent = RF.fin q) :
    decodeDiskMetrics (encodeDiskMetrics d) = some d := by
  obtain ⟨q, hq⟩ := h
  cases d
  subst hq
  rfl

lemma decodeNetworkMetrics_enc (n : NetworkMetrics) :
    decodeNetworkMetrics (encodeNetworkMetrics n) = some n := by
  cases n with
  | mk a b c d e f g =>
    simp [decodeNetworkMetrics, encodeNetworkMetrics, J.getField, List.lookup, obind,
      decNat_encNat, decStr]

lemma decodeProcessMetrics_enc (p : ProcessMetrics) :
    decodeProcessMetrics (encodeProcessMetrics p) = some p := by
  cases p with
  | mk a b c d e f =>
    simp [decodeProcessMetrics, encodeProcessMetrics, J.getField, List.lookup, obind,
      decNat_encNat, decStr, encQ, decQ]

lemma decodeLoadAverage_enc (l : LoadAverage) :
    decodeLoadAverage (encodeLoadAverage l) = some l := rfl

/-- Elementwise decoding inverts elementwise encoding. -/
lemma mapM_map_roundtrip {α : Type} (f : α → J) (g : J → Option α) :
    ∀ l : List α, (∀ x ∈ l, g (f x) = some x) → (l.map f).mapM g = some l
  | [], _ => rfl
  | x :: xs, h => by
    have hx := h x (List.mem_cons_self x xs)
    have hxs := mapM_map_roundtrip f g xs fun y hy => h y (List.mem_cons_of_mem x hy)
    rw [List.map_cons, List.mapM_cons, hx, hxs]
    rfl

/-- C8 (amended): every `SystemMetrics` snapshot whose float-valued percent
fields are finite round-trips through JSON encoding and decoding
field-for-field.  (Unrestricted, the claim fails: a snapshot whose unguarded
`memory_usage_percent` is NaN — which `collect_metrics` produces when total
memory is 0 MB — serializes that field to `null`, which does not decode back
into a float field.) -/
theorem snapshot_roundtrip (s : SystemMetrics)
    (hmem : ∃ q, s.memory_usage_percent = RF.fin q)
    (hdisks : ∀ d ∈ s.disks, ∃ q, d.usage_percent = RF.fin q) :
    decodeMetrics (encodeMetrics s) = some s := by
  obtain ⟨qm, hqm⟩ := hmem
  have hcores : decArr decodeCoreMetrics (J.arr (s.cpu_cores.map encodeCoreMetrics))
      = some s.cpu_cores :=
    mapM_map_roundtrip _ _ _ fun c _ => decodeCoreMetrics_enc c
  have hdiskmap : decArr decodeDiskMetrics (J.arr (s.disks.map encodeDiskMetrics))
      = some s.disks :=
    mapM_map_roundtrip _ _ _ fun d hd => decodeDiskMetrics_enc d (hdisks d hd)
  have hnets : decArr decodeNetworkMetrics
      (J.arr (s.network_interfaces.map encodeNetworkMetrics))
      = some s.network_interfaces :=
    mapM_map_roundtrip _ _ _ fun n _ => decodeNetworkMetrics_enc n
  have hprocs : decArr decodeProcessMetrics
      (J.arr (s.top_processes.map encodeProcessMetrics))
      = some s.top_processes :=
    mapM_map_roundtrip _ _ _ fun p _ => decodeProcessMetrics_enc p
  simp [decodeMetrics, encodeMetrics, J.getField, List.lookup, obind,
    decNat_encNat, decStr, decBool, encQ, decQ, hqm, encRF, decRF,
    decodeOsInfo_enc, decodeCpuInfo_enc, decodeLoadAverage_enc,
    hcores, hdiskmap, hnets, hprocs]
  rw [← hqm]

/-- Witness for C8: a concrete snapshot with finite percent fields
round-trips exactly. -/
theorem snapshot_roundtrip_witness :
    decodeMetrics (encodeMetrics sampleSnapshot) = some sampleSnapshot := by
  apply snapshot_roundtrip
  · exact ⟨50, rfl⟩
  · intro d hd
    simp only [sampleSnapshot, List.mem_singleton] at hd
    subst hd
    exact ⟨60, rfl⟩

/-- C8 counterexample: the NaN-percent snapshot (producible by
`collect_metrics` on a 0-MB-memory reading) does not round-trip: its encoding
decodes to nothing at all, let alone to a field-for-field equal record. -/
theorem snapshot_roundtrip_counterexample :
    decodeMetrics (encodeMetrics nanSnapshot) ≠ some nanSnapshot := by
  have h : decodeMetrics (encodeMetrics nanSnapshot) = none := rfl
  rw [h]
  simp
